import Mathlib

/-!
Verification development for the `sound_player` repository, a single-track
remote-controllable audio player.  We shallowly embed the Rust source:

* `src/command.rs` — the command parser (`Command`, `CommandParseError`,
  `TryFrom<&str> for Command`);
* `src/sound_player.rs` — the playback session `SoundPlayer`;
* `src/sound_player_manager.rs` — the playback session `SoundPlayerManager`
  (identical to `SoundPlayer` up to logging, which is I/O and carries no
  session state).

External collaborators (the `rodio` engine, the file system, `std`'s numeric
parsers) are modelled at the boundary the repository code observes: a sink is
the tuple of engine-side attributes the code can read or set
(`is_paused`, `volume`, `speed`, `empty`); fallible engine calls
(`File::open`, `rodio::play`, `try_seek`) become explicit outcome parameters
of the operations that make them.  `f32` is modelled by exact values plus the
special values `nan`, `+inf`, `-inf`, with IEEE-754 comparison semantics
(comparisons with `nan` are false); the only float operations the repository
performs are comparisons against `0.0` and `1.0` and pass-through storage, so
rounding is not observable.
-/

/-- Model of Rust `f32` as observed by this program: `nan`, the two
infinities, and finite values represented exactly by a rational.  The code
only ever compares floats (against `0.0` and `1.0`) and stores them, so this
carries exactly the observable structure.  (`-0.0` compares equal to `0.0` in
IEEE-754 and is represented by `finite 0`.) -/
inductive F32 where
  | nan
  | negInf
  | finite (q : ℚ)
  | posInf
deriving DecidableEq, Repr

/-- IEEE-754 `<=` on the model: any comparison involving `nan` is false. -/
def F32.le : F32 → F32 → Bool
  | .nan, _ => false
  | _, .nan => false
  | .negInf, _ => true
  | _, .negInf => false
  | _, .posInf => true
  | .posInf, _ => false
  | .finite a, .finite b => decide (a ≤ b)

/-- IEEE-754 `<` on the model: any comparison involving `nan` is false. -/
def F32.lt : F32 → F32 → Bool
  | .nan, _ => false
  | _, .nan => false
  | .negInf, .negInf => false
  | .negInf, _ => true
  | _, .negInf => false
  | .posInf, _ => false
  | _, .posInf => true
  | .finite a, .finite b => decide (a < b)

/-- The engine-side state of one active `rodio::Sink` that the repository's
code can observe or set: `is_paused()`, `volume()`, `set_volume`,
`set_speed`, `empty()`. -/
structure Sink where
  paused : Bool
  vol : F32
  spd : F32
  empty : Bool
deriving DecidableEq, Repr

/-- `SoundPlayerError` from `src/sound_player.rs` (the identical enum appears
in `src/sound_player_manager.rs`).  The `#[source]` payloads are opaque
library error values and are not part of the variant identity the program
matches on, so they are dropped. -/
inductive SPError where
  | NoSongLoaded
  | FileOpenError (file : String)
  | DecodingError (file : String)
  | StreamError
  | SeekError (position : Nat)
  | PlayError (file : String)
  | InvalidVolume (volume : F32)
  | InvalidSpeed (speed : F32)
  | InvalidStreamHandle
deriving DecidableEq, Repr

/-- Session state of `SoundPlayer` (`src/sound_player.rs`): `current_song`
and the optional sink.  The `stream_handle` field is an opaque device handle
acquired in `new()` and only ever passed to the engine, so it carries no
observable state and is omitted. -/
structure SoundPlayer where
  current_song : String
  sink : Option Sink
deriving DecidableEq, Repr

/-- `SoundPlayer::new`, on the success path (a failure of
`open_default_stream` aborts construction and yields no session at all). -/
def SoundPlayer.new : SoundPlayer :=
  { current_song := "", sink := none }

/-- `SoundPlayer::play`.  `openOk` is the outcome of `File::open(sound_file)`
and `startRes` the outcome of `rodio::play` (`some snk` on success, with the
attributes of the freshly created sink).  The source first stops and releases
any active sink, then opens the file, then starts rendering; each `?` failure
returns with the session as it stands at that point. -/
def SoundPlayer.play (openOk : Bool) (startRes : Option Sink)
    (sound_file : String) (s : SoundPlayer) :
    Except SPError Unit × SoundPlayer :=
  let s1 : SoundPlayer :=
    match s.sink with
    | some _ => { s with sink := none }
    | none => s
  if !openOk then
    (.error (.FileOpenError sound_file), s1)
  else
    match startRes with
    | none => (.error (.PlayError sound_file), s1)
    | some snk => (.ok (), { current_song := sound_file, sink := some snk })

/-- `SoundPlayer::pause`: `get_sink()?`, then `pause()` the sink unless it is
already paused. -/
def SoundPlayer.pause (s : SoundPlayer) : Except SPError Unit × SoundPlayer :=
  match s.sink with
  | none => (.error .NoSongLoaded, s)
  | some snk =>
    if !snk.paused then (.ok (), { s with sink := some { snk with paused := true } })
    else (.ok (), s)

/-- `SoundPlayer::resume`: `get_sink()?`, then `play()` the sink if it is
paused. -/
def SoundPlayer.resume (s : SoundPlayer) : Except SPError Unit × SoundPlayer :=
  match s.sink with
  | none => (.error .NoSongLoaded, s)
  | some snk =>
    if snk.paused then (.ok (), { s with sink := some { snk with paused := false } })
    else (.ok (), s)

/-- `SoundPlayer::stop`: `get_sink()?`, stop it, release it, clear
`current_song`. -/
def SoundPlayer.stop (s : SoundPlayer) : Except SPError Unit × SoundPlayer :=
  match s.sink with
  | none => (.error .NoSongLoaded, s)
  | some _ => (.ok (), { current_song := "", sink := none })

/-- `SoundPlayer::seek`: `get_sink()?`, then `try_seek`; `seekOk` is the
engine's outcome.  The playback position is engine-internal and not part of
the observable session state. -/
def SoundPlayer.seek (seekOk : Bool) (position : Nat) (s : SoundPlayer) :
    Except SPError Unit × SoundPlayer :=
  match s.sink with
  | none => (.error .NoSongLoaded, s)
  | some _ =>
    if seekOk then (.ok (), s) else (.error (.SeekError position), s)

/-- `SoundPlayer::volume`: range check `(0.0..=1.0).contains(&volume)`
(IEEE comparisons, hence false for `nan`) before `get_sink()?`, then
`set_volume`. -/
def SoundPlayer.volume (volume : F32) (s : SoundPlayer) :
    Except SPError Unit × SoundPlayer :=
  if !(F32.le (.finite 0) volume && F32.le volume (.finite 1)) then
    (.error (.InvalidVolume volume), s)
  else
    match s.sink with
    | none => (.error .NoSongLoaded, s)
    | some snk => (.ok (), { s with sink := some { snk with vol := volume } })

/-- `SoundPlayer::speed`: the check `speed <= 0.0` (IEEE, hence false for
`nan`) before `get_sink()?`, then `set_speed`. -/
def SoundPlayer.speed (speed : F32) (s : SoundPlayer) :
    Except SPError Unit × SoundPlayer :=
  if F32.le speed (.finite 0) then
    (.error (.InvalidSpeed speed), s)
  else
    match s.sink with
    | none => (.error .NoSongLoaded, s)
    | some snk => (.ok (), { s with sink := some { snk with spd := speed } })

/-- `SoundPlayer::current_song`: always readable, returns the stored string
(possibly empty); takes `&self` and performs no engine call. -/
def SoundPlayer.currentSong (s : SoundPlayer) : String × SoundPlayer :=
  (s.current_song, s)

/-- `SoundPlayer::is_paused`: `get_sink()?`, then read `is_paused()`. -/
def SoundPlayer.is_paused (s : SoundPlayer) :
    Except SPError Bool × SoundPlayer :=
  match s.sink with
  | none => (.error .NoSongLoaded, s)
  | some snk => (.ok snk.paused, s)

/-- `SoundPlayer::is_playing`: `get_sink()?`, then
`!sink.empty() && !sink.is_paused()`. -/
def SoundPlayer.is_playing (s : SoundPlayer) :
    Except SPError Bool × SoundPlayer :=
  match s.sink with
  | none => (.error .NoSongLoaded, s)
  | some snk => (.ok (!snk.empty && !snk.paused), s)

/-- `SoundPlayer::is_empty`: `get_sink()?`, then `sink.empty()`. -/
def SoundPlayer.is_empty (s : SoundPlayer) :
    Except SPError Bool × SoundPlayer :=
  match s.sink with
  | none => (.error .NoSongLoaded, s)
  | some snk => (.ok snk.empty, s)

/-- `SoundPlayer::get_volume`: `get_sink()?`, then `sink.volume()`. -/
def SoundPlayer.get_volume (s : SoundPlayer) :
    Except SPError F32 × SoundPlayer :=
  match s.sink with
  | none => (.error .NoSongLoaded, s)
  | some snk => (.ok snk.vol, s)

/-! ## `SoundPlayerManager` (`src/sound_player_manager.rs`)

The second session implementation.  Its operations differ from
`SoundPlayer`'s only by `log::{info, warn, debug, error}` calls (I/O with no
session state) and, in `stop`, a clone of `current_song` made for logging.
It is embedded separately and literally so that behavioural equivalence can
be stated and proved rather than assumed. -/

/-- Session state of `SoundPlayerManager`; as for `SoundPlayer`, the opaque
`stream_handle` is omitted. -/
structure SoundPlayerManager where
  current_song : String
  sink : Option Sink
deriving DecidableEq, Repr

/-- `SoundPlayerManager::new`, success path. -/
def SoundPlayerManager.new : SoundPlayerManager :=
  { current_song := "", sink := none }

/-- `SoundPlayerManager::play` (logging stripped). -/
def SoundPlayerManager.play (openOk : Bool) (startRes : Option Sink)
    (sound_file : String) (s : SoundPlayerManager) :
    Except SPError Unit × SoundPlayerManager :=
  let s1 : SoundPlayerManager :=
    match s.sink with
    | some _ => { s with sink := none }
    | none => s
  if !openOk then
    (.error (.FileOpenError sound_file), s1)
  else
    match startRes with
    | none => (.error (.PlayError sound_file), s1)
    | some snk => (.ok (), { current_song := sound_file, sink := some snk })

/-- `SoundPlayerManager::pause`: if already paused it only logs a warning,
else pauses the sink. -/
def SoundPlayerManager.pause (s : SoundPlayerManager) :
    Except SPError Unit × SoundPlayerManager :=
  match s.sink with
  | none => (.error .NoSongLoaded, s)
  | some snk =>
    if snk.paused then (.ok (), s)
    else (.ok (), { s with sink := some { snk with paused := true } })

/-- `SoundPlayerManager::resume`: if not paused it only logs a warning, else
resumes the sink. -/
def SoundPlayerManager.resume (s : SoundPlayerManager) :
    Except SPError Unit × SoundPlayerManager :=
  match s.sink with
  | none => (.error .NoSongLoaded, s)
  | some snk =>
    if !snk.paused then (.ok (), s)
    else (.ok (), { s with sink := some { snk with paused := false } })

/-- `SoundPlayerManager::stop` (the clone of `current_song` feeds only the
log line). -/
def SoundPlayerManager.stop (s : SoundPlayerManager) :
    Except SPError Unit × SoundPlayerManager :=
  match s.sink with
  | none => (.error .NoSongLoaded, s)
  | some _ => (.ok (), { current_song := "", sink := none })

/-- `SoundPlayerManager::seek`. -/
def SoundPlayerManager.seek (seekOk : Bool) (where_to_seek : Nat)
    (s : SoundPlayerManager) : Except SPError Unit × SoundPlayerManager :=
  match s.sink with
  | none => (.error .NoSongLoaded, s)
  | some _ =>
    if seekOk then (.ok (), s) else (.error (.SeekError where_to_seek), s)

/-- `SoundPlayerManager::volume`. -/
def SoundPlayerManager.volume (volume : F32) (s : SoundPlayerManager) :
    Except SPError Unit × SoundPlayerManager :=
  if !(F32.le (.finite 0) volume && F32.le volume (.finite 1)) then
    (.error (.InvalidVolume volume), s)
  else
    match s.sink with
    | none => (.error .NoSongLoaded, s)
    | some snk => (.ok (), { s with sink := some { snk with vol := volume } })

/-- `SoundPlayerManager::speed`. -/
def SoundPlayerManager.speed (speed : F32) (s : SoundPlayerManager) :
    Except SPError Unit × SoundPlayerManager :=
  if F32.le speed (.finite 0) then
    (.error (.InvalidSpeed speed), s)
  else
    match s.sink with
    | none => (.error .NoSongLoaded, s)
    | some snk => (.ok (), { s with sink := some { snk with spd := speed } })

/-- `SoundPlayerManager::current_song`. -/
def SoundPlayerManager.currentSong (s : SoundPlayerManager) :
    String × SoundPlayerManager :=
  (s.current_song, s)

/-- `SoundPlayerManager::is_paused`. -/
def SoundPlayerManager.is_paused (s : SoundPlayerManager) :
    Except SPError Bool × SoundPlayerManager :=
  match s.sink with
  | none => (.error .NoSongLoaded, s)
  | some snk => (.ok snk.paused, s)

/-- `SoundPlayerManager::is_playing`. -/
def SoundPlayerManager.is_playing (s : SoundPlayerManager) :
    Except SPError Bool × SoundPlayerManager :=
  match s.sink with
  | none => (.error .NoSongLoaded, s)
  | some snk => (.ok (!snk.empty && !snk.paused), s)

/-- `SoundPlayerManager::is_empty`. -/
def SoundPlayerManager.is_empty (s : SoundPlayerManager) :
    Except SPError Bool × SoundPlayerManager :=
  match s.sink with
  | none => (.error .NoSongLoaded, s)
  | some snk => (.ok snk.empty, s)

/-- `SoundPlayerManager::get_volume`. -/
def SoundPlayerManager.get_volume (s : SoundPlayerManager) :
    Except SPError F32 × SoundPlayerManager :=
  match s.sink with
  | none => (.error .NoSongLoaded, s)
  | some snk => (.ok snk.vol, s)

/-- The field-for-field correspondence between the two session types, used
to state behavioural equivalence. -/
def SoundPlayer.toManager (s : SoundPlayer) : SoundPlayerManager :=
  { current_song := s.current_song, sink := s.sink }

/-! ## Command parser (`src/command.rs`) -/

/-- `str::to_lowercase` as used here: per-character lowercasing.  Rust's
lowercasing is Unicode-aware; on the ASCII alphabet of the recognised
command names (the only place the result is inspected) per-character ASCII
lowercasing coincides with it. -/
def toLowerStr (s : String) : String :=
  String.mk (s.data.map Char.toLower)

/-- Accumulator pass for `splitWhitespace`: `acc` holds the characters of
the token in progress, in reverse. -/
def splitWsAux : List Char → List Char → List String
  | [], [] => []
  | [], acc => [String.mk acc.reverse]
  | c :: cs, acc =>
    if c.isWhitespace then
      match acc with
      | [] => splitWsAux cs []
      | _ => String.mk acc.reverse :: splitWsAux cs []
    else splitWsAux cs (c :: acc)

/-- `str::split_whitespace().collect::<Vec<_>>()`: maximal runs of
non-whitespace characters, in order.  The source precedes this with `trim`,
which only removes leading/trailing whitespace that `split_whitespace`
already produces no token for, so it is absorbed.  Rust splits on Unicode
`White_Space`; `Char.isWhitespace` covers the ASCII fragment. -/
def splitWhitespace (s : String) : List String :=
  splitWsAux s.data []

/-- Digit-string value, most significant first (`cs` all ASCII digits). -/
def digitsToNat (cs : List Char) : Nat :=
  cs.foldl (fun a c => a * 10 + (c.toNat - 48)) 0

/-- `str::parse::<u64>()`: an optional leading `+`, then one or more ASCII
digits, and the value must fit in `u64`.  (A leading `-` is rejected for an
unsigned target.) -/
def parseU64 (s : String) : Option Nat :=
  let cs : List Char :=
    match s.data with
    | '+' :: rest => rest
    | cs => cs
  if cs ≠ [] ∧ cs.all Char.isDigit then
    let n := digitsToNat cs
    if n < 2 ^ 64 then some n else none
  else none

/-- Split a character list at the first exponent marker `e`/`E`. -/
def splitAtExp : List Char → List Char × Option (List Char)
  | [] => ([], none)
  | c :: cs =>
    if c = 'e' ∨ c = 'E' then ([], some cs)
    else
      let r := splitAtExp cs
      (c :: r.1, r.2)

/-- Split a character list at the first decimal point. -/
def splitAtDot : List Char → List Char × Option (List Char)
  | [] => ([], none)
  | c :: cs =>
    if c = '.' then ([], some cs)
    else
      let r := splitAtDot cs
      (c :: r.1, r.2)

/-- `str::parse::<f32>()`.  The accepted grammar is std's:
`Sign? (inf | infinity | nan | Number)` with
`Number ::= (Digit+ | Digit+ . Digit* | Digit* . Digit+) Exp?` and
`Exp ::= (e | E) Sign? Digit+`, keywords case-insensitive.  Accepted finite
numbers are modelled by their exact value (std rounds to the nearest `f32`
and maps overflow to the infinities; no claim observes the rounded value,
only acceptance and comparisons with `0.0` and `1.0`). -/
def parseF32 (s : String) : Option F32 :=
  let sgnCs : Int × List Char :=
    match s.data with
    | '+' :: rest => (1, rest)
    | '-' :: rest => (-1, rest)
    | cs => (1, cs)
  let sgn := sgnCs.1
  let cs := sgnCs.2
  let low := cs.map Char.toLower
  if low = "inf".data ∨ low = "infinity".data then
    some (if sgn = 1 then .posInf else .negInf)
  else if low = "nan".data then
    some .nan
  else
    let me := splitAtExp cs
    let ifr := splitAtDot me.1
    let ip := ifr.1
    let mantOk : Bool :=
      match ifr.2 with
      | none => ip ≠ [] ∧ ip.all Char.isDigit
      | some f => (ip ≠ [] ∨ f ≠ []) ∧ ip.all Char.isDigit ∧ f.all Char.isDigit
    let expVal : Option Int :=
      match me.2 with
      | none => some 0
      | some ecs =>
        let esgnCs : Int × List Char :=
          match ecs with
          | '+' :: rest => (1, rest)
          | '-' :: rest => (-1, rest)
          | cs' => (1, cs')
        if esgnCs.2 ≠ [] ∧ esgnCs.2.all Char.isDigit then
          some (esgnCs.1 * (digitsToNat esgnCs.2 : Int))
        else none
    match expVal with
    | none => none
    | some e =>
      if mantOk then
        let f := ifr.2.getD []
        let mantNum : Int :=
          sgn * (digitsToNat ip * 10 ^ f.length + digitsToNat f : Nat)
        some (.finite
          (if 0 ≤ e then Rat.divInt (mantNum * 10 ^ e.toNat) (10 ^ f.length)
           else Rat.divInt mantNum (10 ^ (f.length + (-e).toNat))))
      else none

/-- `Command` from `src/command.rs`. -/
inductive Command where
  | Play (song_name : String)
  | Stop
  | Pause
  | Resume
  | Seek (position : Nat)
  | Volume (level : F32)
  | Speed (factor : F32)
deriving DecidableEq, Repr

/-- `CommandParseError` from `src/command.rs`. -/
inductive CommandParseError where
  | InvalidParameters
  | UnknownCommand
deriving DecidableEq, Repr

/-- The `match command_name.as_str()` body of `Command::try_from`:
`command_name` is the lowercased first token and `rest` the remaining
tokens.  `play` requires `parts.len() >= 2` and takes `parts[1]`; `seek`,
`volume`, `speed` read `parts.get(1)` and convert it; extra tokens are
never inspected. -/
def Command.fromName (command_name : String) (rest : List String) :
    Except CommandParseError Command :=
  match command_name with
    | "play" =>
      match rest with
      | p :: _ => .ok (.Play p)
      | [] => .error .InvalidParameters
    | "stop" => .ok .Stop
    | "pause" => .ok .Pause
    | "resume" => .ok .Resume
    | "seek" =>
      match rest with
      | p :: _ =>
        match parseU64 p with
        | some position => .ok (.Seek position)
        | none => .error .InvalidParameters
      | [] => .error .InvalidParameters
    | "volume" =>
      match rest with
      | p :: _ =>
        match parseF32 p with
        | some level => .ok (.Volume level)
        | none => .error .InvalidParameters
      | [] => .error .InvalidParameters
    | "speed" =>
      match rest with
      | p :: _ =>
        match parseF32 p with
        | some factor => .ok (.Speed factor)
        | none => .error .InvalidParameters
      | [] => .error .InvalidParameters
    | _ => .error .UnknownCommand

/-- Dispatch of `Command::try_from` on the token list: `parts.get(0)` is
lowercased (`None`, i.e. no tokens at all, yields `UnknownCommand`), then
the per-command rules of `Command.fromName` apply. -/
def Command.parseParts : List String → Except CommandParseError Command
  | [] => .error .UnknownCommand
  | name :: rest => Command.fromName (toLowerStr name) rest

/-- `Command::try_from(&str)`: tokenise, then dispatch on the parts. -/
def Command.tryFrom (s : String) : Except CommandParseError Command :=
  Command.parseParts (splitWhitespace s)

/-! ## Shared definitions for the correctness statements -/

deriving instance DecidableEq for Except

/-- Spec invariant (b): `current_song` is non-empty iff a rendering handle
is active. -/
def songSinkInv (s : SoundPlayer) : Prop :=
  s.current_song ≠ "" ↔ s.sink.isSome = true

instance (s : SoundPlayer) : Decidable (songSinkInv s) := by
  unfold songSinkInv; infer_instance

/-- A concrete sink value (freshly started: playing, default volume and
speed, queue non-empty) used in concrete scenarios. -/
def demoSink : Sink :=
  { paused := false, vol := .finite 1, spd := .finite 1, empty := false }

/-- A concrete session with song `"a"` loaded and an active sink, as
produced by a successful `play("a")` from a fresh session. -/
def sessionA : SoundPlayer :=
  { current_song := "a", sink := some demoSink }

/-! ## Claims -/

/-- C9: `stop()` with no active handle (in particular on a fresh session)
fails with `NoSongLoaded` and changes nothing; `stop()` with an active
handle succeeds, releases the handle and clears `current_song`, reaching
`Idle`. -/
theorem c9_stop_semantics (s : SoundPlayer) :
    (s.sink = none → SoundPlayer.stop s = (.error .NoSongLoaded, s)) ∧
    (∀ snk, s.sink = some snk →
      SoundPlayer.stop s = (.ok (), { current_song := "", sink := none })) ∧
    SoundPlayer.stop SoundPlayer.new = (.error .NoSongLoaded, SoundPlayer.new) := by
  refine ⟨fun h => ?_, fun snk h => ?_, by decide⟩ <;>
    simp [SoundPlayer.stop, h]

/-- Witness for `c9_stop_semantics` at concrete inputs: a fresh session and
a session with a loaded song. -/
theorem c9_stop_semantics_witness :
    SoundPlayer.stop SoundPlayer.new = (.error .NoSongLoaded, SoundPlayer.new) ∧
    SoundPlayer.stop sessionA = (.ok (), { current_song := "", sink := none }) :=
  ⟨(c9_stop_semantics SoundPlayer.new).1 rfl,
   (c9_stop_semantics sessionA).2.1 demoSink rfl⟩

/-- C8: `pause`/`resume` are idempotent and fail only from `Idle`: with an
active handle `pause()` succeeds and leaves the session paused (a second
`pause` also succeeds and changes nothing); `resume()` symmetrically
succeeds and leaves the session playing; with no handle both fail with
`NoSongLoaded` leaving the state unchanged. -/
theorem c8_pause_resume_idempotent (s : SoundPlayer) :
    (s.sink = none →
      SoundPlayer.pause s = (.error .NoSongLoaded, s) ∧
      SoundPlayer.resume s = (.error .NoSongLoaded, s)) ∧
    (∀ snk, s.sink = some snk →
      (SoundPlayer.pause s).1 = .ok () ∧
      (SoundPlayer.pause s).2.sink.map Sink.paused = some true ∧
      (SoundPlayer.pause (SoundPlayer.pause s).2).1 = .ok () ∧
      (SoundPlayer.pause (SoundPlayer.pause s).2).2 = (SoundPlayer.pause s).2 ∧
      (SoundPlayer.resume s).1 = .ok () ∧
      (SoundPlayer.resume s).2.sink.map Sink.paused = some false ∧
      (SoundPlayer.resume (SoundPlayer.resume s).2).1 = .ok () ∧
      (SoundPlayer.resume (SoundPlayer.resume s).2).2 = (SoundPlayer.resume s).2) := by
  constructor
  · intro h
    simp [SoundPlayer.pause, SoundPlayer.resume, h]
  · intro snk h
    cases hp : snk.paused <;>
      simp [SoundPlayer.pause, SoundPlayer.resume, h, hp]

/-- Witness for `c8_pause_resume_idempotent`: a fresh session (no handle)
and a session with a playing sink. -/
theorem c8_pause_resume_idempotent_witness :
    SoundPlayer.pause SoundPlayer.new = (.error .NoSongLoaded, SoundPlayer.new) ∧
    (SoundPlayer.pause sessionA).1 = .ok () ∧
    (SoundPlayer.pause (SoundPlayer.pause sessionA).2).2 = (SoundPlayer.pause sessionA).2 :=
  ⟨((c8_pause_resume_idempotent SoundPlayer.new).1 rfl).1,
   ((c8_pause_resume_idempotent sessionA).2 demoSink rfl).1,
   ((c8_pause_resume_idempotent sessionA).2 demoSink rfl).2.2.2.1⟩

/-- C5: out-of-range `volume(level)` (IEEE: `level` not in `[0.0, 1.0]`,
which includes `nan`) fails with `InvalidVolume{level}` and leaves the
session unchanged even with no song loaded; an in-range level with no
active handle fails with `NoSongLoaded`, also unchanged.  In particular
`volume(-0.1)` and `volume(1.5)` fail with `InvalidVolume` on every
session. -/
theorem c5_volume_validation (level : F32) (s : SoundPlayer) :
    ((F32.le (.finite 0) level && F32.le level (.finite 1)) = false →
      SoundPlayer.volume level s = (.error (.InvalidVolume level), s)) ∧
    ((F32.le (.finite 0) level && F32.le level (.finite 1)) = true → s.sink = none →
      SoundPlayer.volume level s = (.error .NoSongLoaded, s)) ∧
    SoundPlayer.volume (.finite (Rat.divInt (-1) 10)) s
      = (.error (.InvalidVolume (.finite (Rat.divInt (-1) 10))), s) ∧
    SoundPlayer.volume (.finite (Rat.divInt 3 2)) s
      = (.error (.InvalidVolume (.finite (Rat.divInt 3 2))), s) := by
  have h1 : (F32.le (.finite 0) (.finite (Rat.divInt (-1) 10)) &&
      F32.le (.finite (Rat.divInt (-1) 10)) (.finite 1)) = false := by decide
  have h2 : (F32.le (.finite 0) (.finite (Rat.divInt 3 2)) &&
      F32.le (.finite (Rat.divInt 3 2)) (.finite 1)) = false := by decide
  refine ⟨fun h => ?_, fun h hs => ?_, ?_, ?_⟩ <;>
    simp [SoundPlayer.volume, h1, h2, *]

/-- Witness for `c5_volume_validation`: `volume(1.5)` on a fresh session
fails with `InvalidVolume`; `volume(0.5)` on a fresh session fails with
`NoSongLoaded`. -/
theorem c5_volume_validation_witness :
    SoundPlayer.volume (.finite (Rat.divInt 3 2)) SoundPlayer.new
      = (.error (.InvalidVolume (.finite (Rat.divInt 3 2))), SoundPlayer.new) ∧
    SoundPlayer.volume (.finite (Rat.divInt 1 2)) SoundPlayer.new
      = (.error .NoSongLoaded, SoundPlayer.new) :=
  ⟨(c5_volume_validation (.finite (Rat.divInt 3 2)) SoundPlayer.new).1 (by decide),
   (c5_volume_validation (.finite (Rat.divInt 1 2)) SoundPlayer.new).2.1 (by decide) rfl⟩

/-- C4 counterexample: `nan` is not strictly positive (IEEE `0.0 < nan` is
false), yet `speed(nan)` does not fail with `InvalidSpeed`: the code's check
is `speed <= 0.0`, which is also false for `nan`, so on a fresh session the
call reaches the handle check and fails with `NoSongLoaded` instead. -/
theorem c4_nan_counterexample :
    F32.lt (.finite 0) F32.nan = false ∧
    SoundPlayer.speed F32.nan SoundPlayer.new
      = (.error .NoSongLoaded, SoundPlayer.new) ∧
    (SoundPlayer.speed F32.nan SoundPlayer.new).1
      ≠ .error (.InvalidSpeed F32.nan) := by
  decide

/-- C4 (amended): `speed(factor)` fails with `InvalidSpeed{factor}` iff
`factor <= 0.0` under IEEE comparison; for every non-`nan` factor this
coincides with "not strictly positive", and the validation precedes the
handle check, so on failure the session is unchanged and in particular
`speed(0.0)` and `speed(-2.0)` fail with `InvalidSpeed` on every session,
song loaded or not.  (`nan`, which is also not strictly positive, instead
passes the validation and proceeds to the handle check.) -/
theorem c4_speed_validation (factor : F32) (s : SoundPlayer) :
    ((SoundPlayer.speed factor s).1 = .error (.InvalidSpeed factor) ↔
      F32.le factor (.finite 0) = true) ∧
    (F32.le factor (.finite 0) = true →
      SoundPlayer.speed factor s = (.error (.InvalidSpeed factor), s)) ∧
    (factor ≠ .nan → F32.le factor (.finite 0) = !F32.lt (.finite 0) factor) ∧
    SoundPlayer.speed (.finite 0) s = (.error (.InvalidSpeed (.finite 0)), s) ∧
    SoundPlayer.speed (.finite (-2)) s
      = (.error (.InvalidSpeed (.finite (-2))), s) := by
  have key : ∀ f : F32, F32.le f (.finite 0) = true →
      SoundPlayer.speed f s = (.error (.InvalidSpeed f), s) := by
    intro f h
    simp [SoundPlayer.speed, h]
  refine ⟨?_, key factor, fun h => ?_, key _ (by decide), key _ (by decide)⟩
  · constructor
    · intro h
      by_contra hle
      rw [Bool.not_eq_true] at hle
      cases hs : s.sink <;> simp [SoundPlayer.speed, hle, hs] at h
    · intro h
      rw [key factor h]
  · cases factor with
    | nan => exact absurd rfl h
    | negInf => decide
    | posInf => decide
    | finite q =>
      show decide (q ≤ 0) = !decide (0 < q)
      rw [← decide_not, decide_eq_decide]
      exact not_lt.symm

/-- Witness for `c4_speed_validation`: `speed(-2.0)` on a fresh session
fails with `InvalidSpeed`, and for the non-`nan` factor `1.0` the code's
check agrees with "not strictly positive". -/
theorem c4_speed_validation_witness :
    SoundPlayer.speed (.finite (-2)) SoundPlayer.new
      = (.error (.InvalidSpeed (.finite (-2))), SoundPlayer.new) ∧
    F32.le (.finite 1) (.finite 0) = !F32.lt (.finite 0) (.finite 1) :=
  ⟨(c4_speed_validation (.finite (-2)) SoundPlayer.new).2.1 (by decide),
   (c4_speed_validation (.finite 1) SoundPlayer.new).2.2.1 (by decide)⟩

/-- C3 counterexample: with command name `seek` and the two parameters
`"1"` and `"2"` (parameter count not exactly one), parsing does not yield
`InvalidParameters`: the extra token is ignored and the result is
`Seek{1}`. -/
theorem c3_extra_parameter_counterexample :
    (splitWhitespace "seek 1 2").length = 3 ∧
    Command.tryFrom "seek 1 2" = .ok (.Seek 1) ∧
    Command.tryFrom "seek 1 2" ≠ .error .InvalidParameters := by
  decide

/-- C3 (amended): for `play`, `seek`, `volume` and `speed`, a missing
parameter yields `InvalidParameters`, and a first parameter that fails the
expected numeric conversion (`u64` for seek, `f32` for volume/speed) yields
`InvalidParameters`; parameters beyond the first are ignored, never
rejected.  In particular `seek` with parameter `"abc"` yields
`InvalidParameters`. -/
theorem c3_invalid_parameters (p : String) (rest : List String) :
    Command.parseParts ["play"] = .error .InvalidParameters ∧
    Command.parseParts ["seek"] = .error .InvalidParameters ∧
    Command.parseParts ["volume"] = .error .InvalidParameters ∧
    Command.parseParts ["speed"] = .error .InvalidParameters ∧
    (parseU64 p = none →
      Command.parseParts ("seek" :: p :: rest) = .error .InvalidParameters) ∧
    (parseF32 p = none →
      Command.parseParts ("volume" :: p :: rest) = .error .InvalidParameters) ∧
    (parseF32 p = none →
      Command.parseParts ("speed" :: p :: rest) = .error .InvalidParameters) ∧
    Command.parseParts ("play" :: p :: rest) = .ok (.Play p) ∧
    Command.tryFrom "seek abc" = .error .InvalidParameters := by
  refine ⟨by decide, by decide, by decide, by decide, fun h => ?_, fun h => ?_,
    fun h => ?_, rfl, by decide⟩
  · have e : Command.parseParts ("seek" :: p :: rest)
        = (match parseU64 p with
           | some position => Except.ok (Command.Seek position)
           | none => Except.error CommandParseError.InvalidParameters) := rfl
    rw [e, h]
  · have e : Command.parseParts ("volume" :: p :: rest)
        = (match parseF32 p with
           | some level => Except.ok (Command.Volume level)
           | none => Except.error CommandParseError.InvalidParameters) := rfl
    rw [e, h]
  · have e : Command.parseParts ("speed" :: p :: rest)
        = (match parseF32 p with
           | some factor => Except.ok (Command.Speed factor)
           | none => Except.error CommandParseError.InvalidParameters) := rfl
    rw [e, h]

/-- Witness for `c3_invalid_parameters`: the non-numeric parameter `"abc"`
is rejected by `seek`, `volume` and `speed`. -/
theorem c3_invalid_parameters_witness :
    Command.parseParts ["seek", "abc"] = .error .InvalidParameters ∧
    Command.parseParts ["volume", "abc"] = .error .InvalidParameters ∧
    Command.parseParts ["speed", "abc"] = .error .InvalidParameters :=
  ⟨(c3_invalid_parameters "abc" []).2.2.2.2.1 (by decide),
   (c3_invalid_parameters "abc" []).2.2.2.2.2.1 (by decide),
   (c3_invalid_parameters "abc" []).2.2.2.2.2.2.1 (by decide)⟩

/-- C7: parsing is case-insensitive in the command name and preserves the
parameters' case: token lists whose first tokens agree after lowercasing
parse identically, and `"PLAY x.mp3"` and `"play x.mp3"` both parse to
`Play{song_name:"x.mp3"}`. -/
theorem c7_case_insensitive_name (name1 name2 : String) (rest : List String) :
    (toLowerStr name1 = toLowerStr name2 →
      Command.parseParts (name1 :: rest) = Command.parseParts (name2 :: rest)) ∧
    Command.tryFrom "PLAY x.mp3" = .ok (.Play "x.mp3") ∧
    Command.tryFrom "play x.mp3" = .ok (.Play "x.mp3") := by
  refine ⟨fun h => ?_, by decide, by decide⟩
  show Command.fromName (toLowerStr name1) rest
      = Command.fromName (toLowerStr name2) rest
  rw [h]

/-- Witness for `c7_case_insensitive_name`: `["PLAY", "x.mp3"]` and
`["play", "x.mp3"]` parse identically. -/
theorem c7_case_insensitive_name_witness :
    Command.parseParts ["PLAY", "x.mp3"] = Command.parseParts ["play", "x.mp3"] :=
  (c7_case_insensitive_name "PLAY" "play" ["x.mp3"]).1 (by decide)

/-- C6: every operation other than `play` leaves the session state exactly
as it was whenever it fails, and the query operations never mutate state:
`current_song` is always readable and returns the stored string, while
`is_paused`, `is_playing`, `is_empty` and `get_volume` fail with
`NoSongLoaded` exactly when no handle is active. -/
theorem c6_failure_frame (s : SoundPlayer) (seekOk : Bool) (position : Nat)
    (level factor : F32) (e : SPError) :
    ((SoundPlayer.stop s).1 = .error e → (SoundPlayer.stop s).2 = s) ∧
    ((SoundPlayer.pause s).1 = .error e → (SoundPlayer.pause s).2 = s) ∧
    ((SoundPlayer.resume s).1 = .error e → (SoundPlayer.resume s).2 = s) ∧
    ((SoundPlayer.seek seekOk position s).1 = .error e →
      (SoundPlayer.seek seekOk position s).2 = s) ∧
    ((SoundPlayer.volume level s).1 = .error e →
      (SoundPlayer.volume level s).2 = s) ∧
    ((SoundPlayer.speed factor s).1 = .error e →
      (SoundPlayer.speed factor s).2 = s) ∧
    SoundPlayer.currentSong s = (s.current_song, s) ∧
    (SoundPlayer.is_paused s).2 = s ∧
    (SoundPlayer.is_playing s).2 = s ∧
    (SoundPlayer.is_empty s).2 = s ∧
    (SoundPlayer.get_volume s).2 = s ∧
    ((SoundPlayer.is_paused s).1.isOk = !(s.sink = none) ∧
     (SoundPlayer.is_playing s).1.isOk = !(s.sink = none) ∧
     (SoundPlayer.is_empty s).1.isOk = !(s.sink = none) ∧
     (SoundPlayer.get_volume s).1.isOk = !(s.sink = none)) ∧
    (s.sink = none →
      (SoundPlayer.is_paused s).1 = .error .NoSongLoaded ∧
      (SoundPlayer.is_playing s).1 = .error .NoSongLoaded ∧
      (SoundPlayer.is_empty s).1 = .error .NoSongLoaded ∧
      (SoundPlayer.get_volume s).1 = .error .NoSongLoaded) := by
  cases hs : s.sink with
  | none =>
    refine ⟨?_, ?_, ?_, ?_, ?_, ?_, rfl, ?_, ?_, ?_, ?_, ?_, ?_⟩ <;>
      simp [SoundPlayer.stop, SoundPlayer.pause, SoundPlayer.resume,
        SoundPlayer.seek, SoundPlayer.volume, SoundPlayer.speed,
        SoundPlayer.is_paused, SoundPlayer.is_playing, SoundPlayer.is_empty,
        SoundPlayer.get_volume, SoundPlayer.currentSong, Except.isOk, Except.toBool, hs] <;>
      try (split <;> simp)
  | some snk =>
    refine ⟨?_, ?_, ?_, ?_, ?_, ?_, rfl, ?_, ?_, ?_, ?_, ?_, ?_⟩ <;>
      simp [SoundPlayer.stop, SoundPlayer.pause, SoundPlayer.resume,
        SoundPlayer.seek, SoundPlayer.volume, SoundPlayer.speed,
        SoundPlayer.is_paused, SoundPlayer.is_playing, SoundPlayer.is_empty,
        SoundPlayer.get_volume, SoundPlayer.currentSong, Except.isOk, Except.toBool, hs] <;>
      try (split <;> simp_all)

/-- Witness for `c6_failure_frame`: on a fresh session, the failing `stop`
leaves the state unchanged and the queries report `NoSongLoaded`. -/
theorem c6_failure_frame_witness :
    (SoundPlayer.stop SoundPlayer.new).2 = SoundPlayer.new ∧
    (SoundPlayer.is_playing SoundPlayer.new).1 = .error .NoSongLoaded :=
  ⟨(c6_failure_frame SoundPlayer.new true 0 (.finite 0) (.finite 0)
      .NoSongLoaded).1 (by decide),
   ((c6_failure_frame SoundPlayer.new true 0 (.finite 0) (.finite 0)
      .NoSongLoaded).2.2.2.2.2.2.2.2.2.2.2.2 rfl).2.1⟩

/-- C1 counterexample: after a successful `play("a")` from a fresh session
followed by a `play("b")` that fails at `File::open`, `current_song` is
`"a"`, not the empty string — the failing `play` releases the handle but
never clears `current_song`. -/
theorem c1_stale_song_counterexample :
    (SoundPlayer.play true (some demoSink) "a" SoundPlayer.new).1 = .ok () ∧
    (SoundPlayer.play true (some demoSink) "a" SoundPlayer.new).2 = sessionA ∧
    (SoundPlayer.play false none "b" sessionA).1 = .error (.FileOpenError "b") ∧
    (SoundPlayer.play false none "b" sessionA).2.current_song = "a" ∧
    (SoundPlayer.play false none "b" sessionA).2.current_song ≠ "" := by
  decide

/-- C1 (amended): whenever `play(path)` fails (file-open or render-start
failure), the session afterwards has no active rendering handle and
`current_song` *retains its value from before the call* (the code never
clears it on this path); consequently a subsequent `stop()` fails with
`NoSongLoaded`.  After a successful `play("a")` followed by a failing
`play("b")`, `current_song` is the stale `"a"`, not the empty string. -/
theorem c1_play_failure (openOk : Bool) (startRes : Option Sink)
    (file : String) (s : SoundPlayer) (e : SPError) :
    ((SoundPlayer.play openOk startRes file s).1 = .error e →
      (SoundPlayer.play openOk startRes file s).2
        = { current_song := s.current_song, sink := none } ∧
      (SoundPlayer.stop (SoundPlayer.play openOk startRes file s).2).1
        = .error .NoSongLoaded) ∧
    (SoundPlayer.play false none "b"
        (SoundPlayer.play true (some demoSink) "a" SoundPlayer.new).2).2
      = { current_song := "a", sink := none } := by
  refine ⟨fun h => ?_, by decide⟩
  have hframe : (SoundPlayer.play openOk startRes file s).2
      = { current_song := s.current_song, sink := none } := by
    obtain ⟨cs, sk⟩ := s
    cases sk <;> cases openOk <;> cases startRes <;>
      simp_all [SoundPlayer.play]
  exact ⟨hframe, by rw [hframe]; rfl⟩

/-- Witness for `c1_play_failure`: the failing `play("b")` from the
loaded session leaves `{current_song := "a", sink := none}` and the
subsequent `stop` fails with `NoSongLoaded`. -/
theorem c1_play_failure_witness :
    (SoundPlayer.play false none "b" sessionA).2
      = { current_song := "a", sink := none } ∧
    (SoundPlayer.stop (SoundPlayer.play false none "b" sessionA).2).1
      = .error .NoSongLoaded :=
  (c1_play_failure false none "b" sessionA (.FileOpenError "b")).1 (by decide)

/-- C2 counterexample: the invariant "`current_song` is non-empty iff a
handle is active" holds in the loaded session `{current_song := "a",
sink := some demoSink}` but is violated after a `play("b")` that fails at
`File::open`: the resulting state has `current_song = "a"` and no sink. -/
theorem c2_invariant_broken_by_failed_play :
    songSinkInv sessionA ∧
    ¬ songSinkInv (SoundPlayer.play false none "b" sessionA).2 := by
  decide

/-- C2 (amended): the invariant "`current_song` is non-empty iff the sink
is `some`" holds for `new()` and is preserved by `stop`, `pause`, `resume`,
`seek`, `volume`, `speed` and every query operation, whether they succeed
or fail, and by every `play` that succeeds with a non-empty path; it is
*not* preserved by a failing `play` from a state with a song loaded, which
clears the handle but retains `current_song`. -/
theorem c2_invariant_preservation (s : SoundPlayer) :
    songSinkInv SoundPlayer.new ∧
    (songSinkInv s →
      songSinkInv (SoundPlayer.stop s).2 ∧
      songSinkInv (SoundPlayer.pause s).2 ∧
      songSinkInv (SoundPlayer.resume s).2 ∧
      (∀ seekOk position, songSinkInv (SoundPlayer.seek seekOk position s).2) ∧
      (∀ level, songSinkInv (SoundPlayer.volume level s).2) ∧
      (∀ factor, songSinkInv (SoundPlayer.speed factor s).2) ∧
      songSinkInv (SoundPlayer.is_paused s).2 ∧
      songSinkInv (SoundPlayer.is_playing s).2 ∧
      songSinkInv (SoundPlayer.is_empty s).2 ∧
      songSinkInv (SoundPlayer.get_volume s).2 ∧
      (∀ file snk, file ≠ "" →
        songSinkInv (SoundPlayer.play true (some snk) file s).2)) := by
  constructor
  · decide
  · intro hinv
    refine ⟨?_, ?_, ?_, fun seekOk position => ?_, fun level => ?_,
      fun factor => ?_, ?_, ?_, ?_, ?_, fun file snk hf => ?_⟩ <;>
      cases hs : s.sink <;>
      simp_all [songSinkInv, SoundPlayer.stop, SoundPlayer.pause,
        SoundPlayer.resume, SoundPlayer.seek, SoundPlayer.volume,
        SoundPlayer.speed, SoundPlayer.is_paused, SoundPlayer.is_playing,
        SoundPlayer.is_empty, SoundPlayer.get_volume, SoundPlayer.play] <;>
      try (split <;> simp_all)

/-- Witness for `c2_invariant_preservation`: from the loaded session the
invariant survives `stop` and a successful `play("b")`. -/
theorem c2_invariant_preservation_witness :
    songSinkInv (SoundPlayer.stop sessionA).2 ∧
    songSinkInv (SoundPlayer.play true (some demoSink) "b" sessionA).2 :=
  ⟨((c2_invariant_preservation sessionA).2 (by decide)).1,
   ((c2_invariant_preservation sessionA).2 (by decide)).2.2.2.2.2.2.2.2.2.2
     "b" demoSink (by decide)⟩

/-- C10: `SoundPlayer` and `SoundPlayerManager` are behaviourally
equivalent up to the field-for-field state correspondence `toManager`:
`new` yields corresponding states, and every corresponding operation, run
from corresponding states with the same inputs and engine outcomes, returns
the same result (value or error) and produces corresponding states
(logging aside). -/
theorem c10_manager_equivalence (s : SoundPlayer) (openOk seekOk : Bool)
    (startRes : Option Sink) (file : String) (position : Nat)
    (level factor : F32) :
    SoundPlayer.new.toManager = SoundPlayerManager.new ∧
    (SoundPlayerManager.play openOk startRes file s.toManager).1
      = (SoundPlayer.play openOk startRes file s).1 ∧
    (SoundPlayerManager.play openOk startRes file s.toManager).2
      = (SoundPlayer.play openOk startRes file s).2.toManager ∧
    (SoundPlayerManager.pause s.toManager).1 = (SoundPlayer.pause s).1 ∧
    (SoundPlayerManager.pause s.toManager).2 = (SoundPlayer.pause s).2.toManager ∧
    (SoundPlayerManager.resume s.toManager).1 = (SoundPlayer.resume s).1 ∧
    (SoundPlayerManager.resume s.toManager).2 = (SoundPlayer.resume s).2.toManager ∧
    (SoundPlayerManager.stop s.toManager).1 = (SoundPlayer.stop s).1 ∧
    (SoundPlayerManager.stop s.toManager).2 = (SoundPlayer.stop s).2.toManager ∧
    (SoundPlayerManager.seek seekOk position s.toManager).1
      = (SoundPlayer.seek seekOk position s).1 ∧
    (SoundPlayerManager.seek seekOk position s.toManager).2
      = (SoundPlayer.seek seekOk position s).2.toManager ∧
    (SoundPlayerManager.volume level s.toManager).1
      = (SoundPlayer.volume level s).1 ∧
    (SoundPlayerManager.volume level s.toManager).2
      = (SoundPlayer.volume level s).2.toManager ∧
    (SoundPlayerManager.get_volume s.toManager).1 = (SoundPlayer.get_volume s).1 ∧
    (SoundPlayerManager.get_volume s.toManager).2
      = (SoundPlayer.get_volume s).2.toManager ∧
    (SoundPlayerManager.speed factor s.toManager).1 = (SoundPlayer.speed factor s).1 ∧
    (SoundPlayerManager.speed factor s.toManager).2
      = (SoundPlayer.speed factor s).2.toManager ∧
    (SoundPlayerManager.currentSong s.toManager).1 = (SoundPlayer.currentSong s).1 ∧
    (SoundPlayerManager.currentSong s.toManager).2
      = (SoundPlayer.currentSong s).2.toManager ∧
    (SoundPlayerManager.is_paused s.toManager).1 = (SoundPlayer.is_paused s).1 ∧
    (SoundPlayerManager.is_paused s.toManager).2
      = (SoundPlayer.is_paused s).2.toManager ∧
    (SoundPlayerManager.is_playing s.toManager).1 = (SoundPlayer.is_playing s).1 ∧
    (SoundPlayerManager.is_playing s.toManager).2
      = (SoundPlayer.is_playing s).2.toManager ∧
    (SoundPlayerManager.is_empty s.toManager).1 = (SoundPlayer.is_empty s).1 ∧
    (SoundPlayerManager.is_empty s.toManager).2
      = (SoundPlayer.is_empty s).2.toManager := by
  obtain ⟨cs, sk⟩ := s
  refine ⟨rfl, ?_, ?_, ?_, ?_, ?_, ?_, ?_, ?_, ?_, ?_, ?_, ?_, ?_, ?_, ?_,
    ?_, ?_, ?_, ?_, ?_, ?_, ?_, ?_, ?_⟩ <;>
    cases sk <;>
    simp [SoundPlayer.toManager, SoundPlayer.play, SoundPlayerManager.play,
      SoundPlayer.pause, SoundPlayerManager.pause, SoundPlayer.resume,
      SoundPlayerManager.resume, SoundPlayer.stop, SoundPlayerManager.stop,
      SoundPlayer.seek, SoundPlayerManager.seek, SoundPlayer.volume,
      SoundPlayerManager.volume, SoundPlayer.speed, SoundPlayerManager.speed,
      SoundPlayer.currentSong, SoundPlayerManager.currentSong,
      SoundPlayer.is_paused, SoundPlayerManager.is_paused,
      SoundPlayer.is_playing, SoundPlayerManager.is_playing,
      SoundPlayer.is_empty, SoundPlayerManager.is_empty,
      SoundPlayer.get_volume, SoundPlayerManager.get_volume] <;>
    (try split) <;>
    (try simp_all [SoundPlayer.toManager]) <;>
    (try split) <;>
    (try simp_all [SoundPlayer.toManager])
